import Mathlib

/-!
Verification of the `BlockEditorProvider` controlled-value synchronization
engine (block-editor provider component).

Shallow embedding: a block tree (as returned by `getBlocks()` and passed as
the `value` prop) is modelled as a `Val` carrying a reference identity `ref`
and structural content `content`.  JavaScript reference equality (`===` /
`Array.prototype.includes`) is equality of the whole `Val`; the structural
comparison `isShallowEqual` compares only `content`.  Two distinct references
with equal content model "deep-equal but different object identity" values.

The component's instance fields `isSyncingOutcomingValue` (a JS array used as
a queue; `push` appends, lodash `last` reads the final element) and
`isSyncingIncomingValue` (a nullable block-tree reference) form
`ProviderState`.  The change-observer closure variables `blocks`,
`isPersistent` and `previousAreBlocksDifferent` form `ObserverState`.

Store dispatches (`resetBlocks`, `resetSelection`) are recorded as explicit
call lists so that "invoked exactly once" is statable.
-/

/-- A block tree value.  `ref` is the object identity, `content` the
structural content; JS `===` is `Val` equality, so reference-equal values
are always structurally equal, while structurally equal values may have
distinct references. -/
structure Val where
  ref : Nat
  content : Nat
deriving DecidableEq, Repr

/-- `isShallowEqual` from `@wordpress/is-shallow-equal`: structural (shallow)
comparison of two block arrays, ignoring object identity. -/
def isShallowEqual (a b : Val) : Bool :=
  a.content == b.content

/-- The component instance state relevant to synchronization:
`isSyncingOutcomingValue` (the outbound echo queue, line 26/57/64/146 of the
source) and `isSyncingIncomingValue` (the incoming sync marker, lines 65 and
124/127; `none` models `null`/`undefined`). -/
structure ProviderState where
  isSyncingOutcomingValue : List Val
  isSyncingIncomingValue : Option Val
deriving DecidableEq, Repr

/-- Result of the value-synchronization part of `componentDidUpdate`
(source lines 49-71): the updated instance state plus the `resetBlocks` and
`resetSelection` dispatches performed, in order. -/
structure UpdateResult where
  prov : ProviderState
  resetBlocksCalls : List Val
  resetSelectionCalls : List (Nat × Nat)
deriving DecidableEq, Repr

/-- The value-synchronization logic of `BlockEditorProvider.componentDidUpdate`
(source lines 49-71).  The settings and registry guards (lines 41-47) are
independent of this logic and carry no sync state, so they are not modelled.
`selectionStart`/`selectionEnd` are selection objects, truthy whenever
present, hence `Option Nat` with `none` for absent/falsy.

- If `value` is in `isSyncingOutcomingValue` (JS `includes`, reference
  equality): skip the reset; additionally clear the whole queue when `value`
  is the last (most recently pushed) entry.
- Else if `value !== prevProps.value`: clear the queue, set
  `isSyncingIncomingValue = value`, dispatch `resetBlocks(value)`, and
  dispatch `resetSelection(start, end)` only when both are truthy.
- Else: no-op. -/
def componentDidUpdate (prov : ProviderState) (prevValue value : Val)
    (selectionStart selectionEnd : Option Nat) : UpdateResult :=
  if value ∈ prov.isSyncingOutcomingValue then
    if prov.isSyncingOutcomingValue.getLast? = some value then
      { prov := { prov with isSyncingOutcomingValue := [] }
        resetBlocksCalls := []
        resetSelectionCalls := [] }
    else
      { prov := prov, resetBlocksCalls := [], resetSelectionCalls := [] }
  else if value ≠ prevValue then
    { prov :=
        { isSyncingOutcomingValue := []
          isSyncingIncomingValue := some value }
      resetBlocksCalls := [value]
      resetSelectionCalls :=
        match selectionStart, selectionEnd with
        | some s, some e => [(s, e)]
        | _, _ => [] }
  else
    { prov := prov, resetBlocksCalls := [], resetSelectionCalls := [] }

/-- The change-observer closure state of `attachChangeObserver` (source lines
106-108): the last observed blocks, the last observed persistence flag, and
`previousAreBlocksDifferent`. -/
structure ObserverState where
  blocks : Val
  isPersistent : Bool
  previousAreBlocksDifferent : Bool
deriving DecidableEq, Repr

/-- What the subscription callback reads from the store on one notification:
`getBlocks()`, `isLastBlockChangePersistent()`,
`areAnyInnerBlocksControlled()`, `__unstableIsLastBlockChangeIgnored()`,
`getSelectionStart()` and `getSelectionEnd()`. -/
structure StoreSnapshot where
  newBlocks : Val
  newIsPersistent : Bool
  anyInnerBlocksControlled : Bool
  isLastBlockChangeIgnored : Bool
  selectionStart : Nat
  selectionEnd : Nat
deriving DecidableEq, Repr

/-- The block-difference test of the subscription callback (source lines
118-120): structural (`isShallowEqual`) comparison when any inner block areas
are controlled, reference comparison (`!==`) otherwise. -/
def areBlocksDifferent (controlled : Bool) (newBlocks blocks : Val) : Bool :=
  if controlled then ! isShallowEqual newBlocks blocks
  else decide (newBlocks ≠ blocks)

/-- An outward emission performed by the subscription callback: `onChange` or
`onInput`, carrying the emitted block tree and the selection pair. -/
inductive Emission where
  | onInput (blocks : Val) (selStart selEnd : Nat)
  | onChange (blocks : Val) (selStart selEnd : Nat)
deriving DecidableEq, Repr

/-- Result of one subscription-callback invocation: updated observer closure
state, updated instance state, and the outward emission if any (`none` models
that neither `onChange` nor `onInput` was called). -/
structure ObserverResult where
  observer : ObserverState
  prov : ProviderState
  emission : Option Emission
deriving DecidableEq, Repr

/-- One invocation of the subscription callback installed by
`attachChangeObserver` (source lines 110-162).

- Compute `areBlocksDifferent` (lines 118-120).
- If different and (`isSyncingIncomingValue` is truthy or the last change is
  ignored): clear the marker, take the new snapshot, and return early with no
  emission (lines 122-131) — note `previousAreBlocksDifferent` is NOT updated
  on this path because of the early `return`.
- Else, compute `didPersistenceChange` (lines 136-140); if different or the
  persistence changed, push onto `isSyncingOutcomingValue` when different,
  take the new snapshot, and emit `onChange` when persistent else `onInput`
  (lines 142-159).
- Record `previousAreBlocksDifferent = areBlocksDifferent` (line 161). -/
def observerStep (obs : ObserverState) (prov : ProviderState)
    (snap : StoreSnapshot) : ObserverResult :=
  let d := areBlocksDifferent snap.anyInnerBlocksControlled snap.newBlocks obs.blocks
  if d && (prov.isSyncingIncomingValue.isSome || snap.isLastBlockChangeIgnored) then
    { observer :=
        { blocks := snap.newBlocks
          isPersistent := snap.newIsPersistent
          previousAreBlocksDifferent := obs.previousAreBlocksDifferent }
      prov := { prov with isSyncingIncomingValue := none }
      emission := none }
  else
    let didPersistenceChange :=
      obs.previousAreBlocksDifferent && !d && snap.newIsPersistent && !obs.isPersistent
    if d || didPersistenceChange then
      { observer :=
          { blocks := snap.newBlocks
            isPersistent := snap.newIsPersistent
            previousAreBlocksDifferent := d }
        prov :=
          if d then
            { prov with isSyncingOutcomingValue :=
                prov.isSyncingOutcomingValue ++ [snap.newBlocks] }
          else prov
        emission :=
          if snap.newIsPersistent then
            some (Emission.onChange snap.newBlocks snap.selectionStart snap.selectionEnd)
          else
            some (Emission.onInput snap.newBlocks snap.selectionStart snap.selectionEnd) }
    else
      { observer := { obs with previousAreBlocksDifferent := d }
        prov := prov
        emission := none }

/-- The store state visible through the queries used by the subscription
callback. -/
structure Store where
  blocks : Val
  isPersistent : Bool
  anyInnerBlocksControlled : Bool
  isLastBlockChangeIgnored : Bool
  selectionStart : Nat
  selectionEnd : Nat
deriving DecidableEq, Repr

/-- The snapshot the subscription callback reads from a store state. -/
def Store.snapshot (st : Store) : StoreSnapshot :=
  { newBlocks := st.blocks
    newIsPersistent := st.isPersistent
    anyInnerBlocksControlled := st.anyInnerBlocksControlled
    isLastBlockChangeIgnored := st.isLastBlockChangeIgnored
    selectionStart := st.selectionStart
    selectionEnd := st.selectionEnd }

/-- Component plus store, for lifecycle-level claims: the store, the attached
subscription-callback state (`none` when no observer is subscribed), the
component instance state, and the outward emissions accumulated so far. -/
structure SyncSystem where
  store : Store
  observer : Option ObserverState
  prov : ProviderState
  emissions : List Emission
deriving DecidableEq, Repr

/-- Synchronous store notification: `registry.subscribe` callbacks fire in
the same turn as the dispatch.  If an observer is attached, run one
`observerStep` and record its emission; otherwise nothing happens. -/
def notifySubscribers (sys : SyncSystem) : SyncSystem :=
  match sys.observer with
  | none => sys
  | some obs =>
    let r := observerStep obs sys.prov sys.store.snapshot
    { sys with
        observer := some r.observer
        prov := r.prov
        emissions := sys.emissions ++ r.emission.toList }

/-- Dispatch `resetBlocks(v)`: the store's block tree becomes `v` (with
post-dispatch persistence/ignored flags `p`/`ign`), then subscribers are
notified synchronously. -/
def dispatchResetBlocks (v : Val) (p ign : Bool) (sys : SyncSystem) : SyncSystem :=
  notifySubscribers
    { sys with
        store :=
          { sys.store with
              blocks := v
              isPersistent := p
              isLastBlockChangeIgnored := ign } }

/-- `attachChangeObserver` (source lines 92-163): release any previous
subscription, read the baseline `blocks`/`isPersistent` from the store, start
with `previousAreBlocksDifferent = false`, and subscribe. -/
def attachChangeObserver (sys : SyncSystem) : SyncSystem :=
  { sys with
      observer := some
        { blocks := sys.store.blocks
          isPersistent := sys.store.isPersistent
          previousAreBlocksDifferent := false } }

/-- `componentDidMount` (source lines 22-27): dispatch
`resetBlocks(value)` — whose synchronous notification reaches no observer,
since none is attached yet — then attach the change observer (reading its
baseline from the post-reset store), then initialize
`isSyncingOutcomingValue` to `[]`.  The `updateSettings` dispatch (line 23)
precedes the reset, touches no block state, and likewise fires before any
observer is attached, so it is not modelled. -/
def componentDidMount (value : Val) (p ign : Bool) (sys : SyncSystem) : SyncSystem :=
  let sys1 := dispatchResetBlocks value p ign sys
  let sys2 := attachChangeObserver sys1
  { sys2 with prov := { sys2.prov with isSyncingOutcomingValue := [] } }

/-- The difference test never fires when the observed blocks are the very
same reference, in either equality mode. -/
theorem areBlocksDifferent_self (c : Bool) (x : Val) :
    areBlocksDifferent c x x = false := by
  cases c <;> simp [areBlocksDifferent, isShallowEqual]

/-- C1: on a value-prop update where the new value is not reference-equal to
any outbound-echo-queue entry and differs by reference from the previous
value, the queue is cleared, the incoming sync marker is armed to the new
value, and `resetBlocks` is invoked exactly once, with the new value. -/
theorem c1_genuine_change (prov : ProviderState) (prevValue value : Val)
    (ss se : Option Nat)
    (hq : value ∉ prov.isSyncingOutcomingValue)
    (hv : value ≠ prevValue) :
    (componentDidUpdate prov prevValue value ss se).prov.isSyncingOutcomingValue = [] ∧
    (componentDidUpdate prov prevValue value ss se).prov.isSyncingIncomingValue
      = some value ∧
    (componentDidUpdate prov prevValue value ss se).resetBlocksCalls = [value] := by
  simp [componentDidUpdate, hq, hv]

theorem c1_genuine_change_witness :
    (componentDidUpdate ⟨[], none⟩ ⟨0, 0⟩ ⟨1, 0⟩ none none).prov.isSyncingOutcomingValue
      = [] ∧
    (componentDidUpdate ⟨[], none⟩ ⟨0, 0⟩ ⟨1, 0⟩ none none).prov.isSyncingIncomingValue
      = some ⟨1, 0⟩ ∧
    (componentDidUpdate ⟨[], none⟩ ⟨0, 0⟩ ⟨1, 0⟩ none none).resetBlocksCalls
      = [⟨1, 0⟩] :=
  c1_genuine_change ⟨[], none⟩ ⟨0, 0⟩ ⟨1, 0⟩ none none (by decide) (by decide)

/-- C2: on a value-prop update where the new value is reference-equal to an
outbound-echo-queue entry, no `resetBlocks` (and no `resetSelection`) is
dispatched and the marker is untouched; the queue is cleared entirely when
the value equals the most recently pushed (last) entry and left unchanged
when it equals only an older entry. -/
theorem c2_echo_skip (prov : ProviderState) (prevValue value : Val)
    (ss se : Option Nat)
    (hq : value ∈ prov.isSyncingOutcomingValue) :
    (componentDidUpdate prov prevValue value ss se).resetBlocksCalls = [] ∧
    (componentDidUpdate prov prevValue value ss se).resetSelectionCalls = [] ∧
    (componentDidUpdate prov prevValue value ss se).prov.isSyncingIncomingValue
      = prov.isSyncingIncomingValue ∧
    (prov.isSyncingOutcomingValue.getLast? = some value →
      (componentDidUpdate prov prevValue value ss se).prov.isSyncingOutcomingValue = []) ∧
    (prov.isSyncingOutcomingValue.getLast? ≠ some value →
      (componentDidUpdate prov prevValue value ss se).prov = prov) := by
  by_cases hl : prov.isSyncingOutcomingValue.getLast? = some value <;>
    simp [componentDidUpdate, hq, hl]

theorem c2_echo_skip_witness :
    (componentDidUpdate ⟨[⟨3, 0⟩], some ⟨9, 9⟩⟩ ⟨0, 0⟩ ⟨3, 0⟩ none none).resetBlocksCalls
      = [] ∧
    (componentDidUpdate ⟨[⟨3, 0⟩], some ⟨9, 9⟩⟩ ⟨0, 0⟩ ⟨3, 0⟩ none none).prov.isSyncingOutcomingValue
      = [] := by
  have h := c2_echo_skip ⟨[⟨3, 0⟩], some ⟨9, 9⟩⟩ ⟨0, 0⟩ ⟨3, 0⟩ none none (by decide)
  exact ⟨h.1, h.2.2.2.1 (by decide)⟩

/-- C9: on an inbound reset (value not in the echo queue and reference-unequal
to the previous value), `resetSelection` is dispatched exactly when both
`selectionStart` and `selectionEnd` are present; a partial pair is silently
ignored — neither endpoint is applied. -/
theorem c9_selection_requires_both (prov : ProviderState) (prevValue value : Val)
    (ss se : Option Nat)
    (hq : value ∉ prov.isSyncingOutcomingValue)
    (hv : value ≠ prevValue) :
    (∀ s e, ss = some s → se = some e →
      (componentDidUpdate prov prevValue value ss se).resetSelectionCalls = [(s, e)]) ∧
    (ss = none ∨ se = none →
      (componentDidUpdate prov prevValue value ss se).resetSelectionCalls = []) := by
  constructor
  · intro s e hs he
    subst hs; subst he
    simp [componentDidUpdate, hq, hv]
  · rintro (hs | hs)
    · subst hs; cases se <;> simp [componentDidUpdate, hq, hv]
    · subst hs; cases ss <;> simp [componentDidUpdate, hq, hv]

theorem c9_selection_requires_both_witness :
    (componentDidUpdate ⟨[], none⟩ ⟨0, 0⟩ ⟨1, 0⟩ (some 7) none).resetSelectionCalls
      = [] :=
  (c9_selection_requires_both ⟨[], none⟩ ⟨0, 0⟩ ⟨1, 0⟩ (some 7) none
    (by decide) (by decide)).2 (Or.inr rfl)

/-- C3: on a notification where the blocks are found different and the
incoming sync marker is armed or the last change is ignorable for sync, the
callback clears the marker, takes the current blocks and persistence flag as
the new snapshot, emits neither `onChange` nor `onInput`, and pushes nothing
onto the outbound echo queue. -/
theorem c3_suppressed_sync (obs : ObserverState) (prov : ProviderState)
    (snap : StoreSnapshot)
    (hd : areBlocksDifferent snap.anyInnerBlocksControlled snap.newBlocks obs.blocks
      = true)
    (hm : (prov.isSyncingIncomingValue.isSome || snap.isLastBlockChangeIgnored)
      = true) :
    (observerStep obs prov snap).emission = none ∧
    (observerStep obs prov snap).prov.isSyncingIncomingValue = none ∧
    (observerStep obs prov snap).observer.blocks = snap.newBlocks ∧
    (observerStep obs prov snap).observer.isPersistent = snap.newIsPersistent ∧
    (observerStep obs prov snap).prov.isSyncingOutcomingValue
      = prov.isSyncingOutcomingValue := by
  simp [observerStep, hd, hm]

theorem c3_suppressed_sync_witness :
    (observerStep ⟨⟨0, 0⟩, false, false⟩ ⟨[], some ⟨1, 1⟩⟩
        ⟨⟨1, 1⟩, false, false, false, 0, 0⟩).emission = none ∧
    (observerStep ⟨⟨0, 0⟩, false, false⟩ ⟨[], some ⟨1, 1⟩⟩
        ⟨⟨1, 1⟩, false, false, false, 0, 0⟩).prov.isSyncingIncomingValue = none :=
  have h := c3_suppressed_sync ⟨⟨0, 0⟩, false, false⟩ ⟨[], some ⟨1, 1⟩⟩
    ⟨⟨1, 1⟩, false, false, false, 0, 0⟩ (by decide) (by decide)
  ⟨h.1, h.2.1⟩

/-- C4: on a notification taken in a neutral context (no armed marker, change
not ignorable, previous invocation found no difference), an outward emission
occurs exactly when the difference test
fires, and that test is structural (`isShallowEqual`) when any inner block
areas are controlled and reference equality otherwise. -/
theorem c4_equality_mode (obs : ObserverState) (prov : ProviderState)
    (snap : StoreSnapshot)
    (hm : prov.isSyncingIncomingValue = none)
    (hi : snap.isLastBlockChangeIgnored = false)
    (hp : obs.previousAreBlocksDifferent = false) :
    (observerStep obs prov snap).emission.isSome
      = areBlocksDifferent snap.anyInnerBlocksControlled snap.newBlocks obs.blocks ∧
    (snap.anyInnerBlocksControlled = true →
      areBlocksDifferent snap.anyInnerBlocksControlled snap.newBlocks obs.blocks
        = ! isShallowEqual snap.newBlocks obs.blocks) ∧
    (snap.anyInnerBlocksControlled = false →
      areBlocksDifferent snap.anyInnerBlocksControlled snap.newBlocks obs.blocks
        = decide (snap.newBlocks ≠ obs.blocks)) := by
  refine ⟨?_, ?_, ?_⟩
  · by_cases hd : areBlocksDifferent snap.anyInnerBlocksControlled snap.newBlocks
        obs.blocks = true
    · cases hpe : snap.newIsPersistent <;> simp [observerStep, hm, hi, hd, hpe]
    · have hd' : areBlocksDifferent snap.anyInnerBlocksControlled snap.newBlocks
          obs.blocks = false := by
        exact Bool.eq_false_iff.mpr hd
      simp [observerStep, hm, hi, hp, hd']
  · intro hc; simp [areBlocksDifferent, hc]
  · intro hc; simp [areBlocksDifferent, hc]

theorem c4_equality_mode_witness :
    (observerStep ⟨⟨0, 5⟩, false, false⟩ ⟨[], none⟩
        ⟨⟨1, 5⟩, false, true, false, 0, 0⟩).emission.isSome
      = areBlocksDifferent true ⟨1, 5⟩ ⟨0, 5⟩ :=
  (c4_equality_mode ⟨⟨0, 5⟩, false, false⟩ ⟨[], none⟩
    ⟨⟨1, 5⟩, false, true, false, 0, 0⟩ rfl rfl rfl).1

/-- C5 counterexample: the claim that every invocation records
`previousAreBlocksDifferent = areBlocksDifferent` fails at a concrete input —
with the marker armed and blocks observed different, the early return of the
suppressed-sync branch skips the recording, leaving the stale `false` even
though the blocks were found different. -/
theorem c5_record_previous_counterexample :
    ¬ ((observerStep ⟨⟨0, 0⟩, false, false⟩ ⟨[], some ⟨1, 1⟩⟩
          ⟨⟨1, 1⟩, false, false, false, 0, 0⟩).observer.previousAreBlocksDifferent
        = areBlocksDifferent false ⟨1, 1⟩ ⟨0, 0⟩) := by
  decide

/-- C5 amended: `previousAreBlocksDifferent` is recorded as the invocation's
`areBlocksDifferent` on every path except the suppressed-sync branch, whose
early return leaves it unchanged from the previous invocation. -/
theorem c5_record_previous_amended (obs : ObserverState) (prov : ProviderState)
    (snap : StoreSnapshot) :
    (observerStep obs prov snap).observer.previousAreBlocksDifferent
      = (if (areBlocksDifferent snap.anyInnerBlocksControlled snap.newBlocks obs.blocks
             && (prov.isSyncingIncomingValue.isSome || snap.isLastBlockChangeIgnored))
            = true
         then obs.previousAreBlocksDifferent
         else areBlocksDifferent snap.anyInnerBlocksControlled snap.newBlocks
           obs.blocks) := by
  rcases obs with ⟨b, ip, pd⟩
  rcases prov with ⟨q, m⟩
  rcases snap with ⟨nb, np, ctl, ign, s1, s2⟩
  cases hd : areBlocksDifferent ctl nb b <;> cases m <;> cases ign <;>
    cases np <;> cases ip <;> cases pd <;> simp [observerStep, hd]

/-- C6: a notification that genuinely observes a transient block change (no
armed marker, not ignorable, blocks different, persistence flag false) emits
`onInput` with the new blocks; a following notification that observes the
same block tree (by reference) with the persistence flag now true emits
exactly one `onChange`, carrying the same block tree as the prior transient
emission — and, being an `onChange`, no `onInput` for that notification. -/
theorem c6_persistence_promotion (obs : ObserverState) (prov : ProviderState)
    (snap1 snap2 : StoreSnapshot)
    (hm : prov.isSyncingIncomingValue = none)
    (hi : snap1.isLastBlockChangeIgnored = false)
    (hd1 : areBlocksDifferent snap1.anyInnerBlocksControlled snap1.newBlocks obs.blocks
      = true)
    (hp1 : snap1.newIsPersistent = false)
    (hb : snap2.newBlocks = snap1.newBlocks)
    (hp2 : snap2.newIsPersistent = true) :
    (observerStep obs prov snap1).emission
      = some (Emission.onInput snap1.newBlocks snap1.selectionStart
          snap1.selectionEnd) ∧
    (observerStep (observerStep obs prov snap1).observer
        (observerStep obs prov snap1).prov snap2).emission
      = some (Emission.onChange snap1.newBlocks snap2.selectionStart
          snap2.selectionEnd) := by
  have h1 : observerStep obs prov snap1 =
      { observer :=
          { blocks := snap1.newBlocks
            isPersistent := snap1.newIsPersistent
            previousAreBlocksDifferent := true }
        prov :=
          { prov with isSyncingOutcomingValue :=
              prov.isSyncingOutcomingValue ++ [snap1.newBlocks] }
        emission := some (Emission.onInput snap1.newBlocks snap1.selectionStart
          snap1.selectionEnd) } := by
    simp [observerStep, hm, hi, hd1, hp1]
  refine ⟨by rw [h1], ?_⟩
  rw [h1]
  simp [observerStep, hm, hp1, hp2, hb, areBlocksDifferent_self]

theorem c6_persistence_promotion_witness :
    (observerStep ⟨⟨0, 0⟩, false, false⟩ ⟨[], none⟩
        ⟨⟨1, 7⟩, false, false, false, 3, 4⟩).emission
      = some (Emission.onInput ⟨1, 7⟩ 3 4) ∧
    (observerStep
        (observerStep ⟨⟨0, 0⟩, false, false⟩ ⟨[], none⟩
          ⟨⟨1, 7⟩, false, false, false, 3, 4⟩).observer
        (observerStep ⟨⟨0, 0⟩, false, false⟩ ⟨[], none⟩
          ⟨⟨1, 7⟩, false, false, false, 3, 4⟩).prov
        ⟨⟨1, 7⟩, true, false, false, 5, 6⟩).emission
      = some (Emission.onChange ⟨1, 7⟩ 5 6) :=
  c6_persistence_promotion ⟨⟨0, 0⟩, false, false⟩ ⟨[], none⟩
    ⟨⟨1, 7⟩, false, false, false, 3, 4⟩ ⟨⟨1, 7⟩, true, false, false, 5, 6⟩
    rfl rfl (by decide) rfl rfl rfl

/-- C7 counterexample: the claim that the first notification running while
the marker is armed always clears it fails at a concrete input — a
notification that observes no block difference (here, the same block
reference) leaves the armed marker in place, with no inbound reset
involved. -/
theorem c7_marker_cleared_counterexample :
    (observerStep ⟨⟨0, 0⟩, false, false⟩ ⟨[], some ⟨5, 5⟩⟩
        ⟨⟨0, 0⟩, false, false, false, 0, 0⟩).prov.isSyncingIncomingValue
      = some ⟨5, 5⟩ := by
  decide

/-- C7 amended: the marker is a single optional reference (at most one is
armed at a time, by the shape of the state); an armed marker is cleared by a
notification exactly when that notification observes the blocks as
different, and is left unchanged by notifications observing no block
difference; an inbound reset overwrites it with the new value. -/
theorem c7_marker_cleared_amended (obs : ObserverState) (prov : ProviderState)
    (snap : StoreSnapshot)
    (hm : prov.isSyncingIncomingValue.isSome = true) :
    (observerStep obs prov snap).prov.isSyncingIncomingValue
      = (if areBlocksDifferent snap.anyInnerBlocksControlled snap.newBlocks obs.blocks
            = true
         then none else prov.isSyncingIncomingValue) := by
  rcases obs with ⟨b, ip, pd⟩
  rcases prov with ⟨q, m⟩
  rcases snap with ⟨nb, np, ctl, ign, s1, s2⟩
  cases hd : areBlocksDifferent ctl nb b <;> cases m <;> cases ign <;>
    cases np <;> cases ip <;> cases pd <;> simp_all [observerStep, hd]

theorem c7_marker_cleared_amended_witness :
    (observerStep ⟨⟨0, 0⟩, false, false⟩ ⟨[], some ⟨5, 5⟩⟩
        ⟨⟨2, 2⟩, false, false, false, 0, 0⟩).prov.isSyncingIncomingValue
      = (if areBlocksDifferent false ⟨2, 2⟩ ⟨0, 0⟩ = true
         then none else some ⟨5, 5⟩) :=
  c7_marker_cleared_amended ⟨⟨0, 0⟩, false, false⟩ ⟨[], some ⟨5, 5⟩⟩
    ⟨⟨2, 2⟩, false, false, false, 0, 0⟩ rfl

/-- C8: a notification whose blocks are found not different (by the
applicable equality) and whose persistence flag equals the last observed one
emits nothing, leaves the instance state (echo queue and marker) untouched,
and changes no observer field except recording
`previousAreBlocksDifferent = false`. -/
theorem c8_noop_notification (obs : ObserverState) (prov : ProviderState)
    (snap : StoreSnapshot)
    (hd : areBlocksDifferent snap.anyInnerBlocksControlled snap.newBlocks obs.blocks
      = false)
    (hp : snap.newIsPersistent = obs.isPersistent) :
    (observerStep obs prov snap).emission = none ∧
    (observerStep obs prov snap).prov = prov ∧
    (observerStep obs prov snap).observer
      = { obs with previousAreBlocksDifferent := false } := by
  cases hip : obs.isPersistent <;>
    simp [observerStep, hd, hp, hip]

theorem c8_noop_notification_witness :
    (observerStep ⟨⟨4, 4⟩, true, true⟩ ⟨[⟨7, 7⟩], some ⟨5, 5⟩⟩
        ⟨⟨4, 4⟩, true, false, false, 1, 2⟩).emission = none ∧
    (observerStep ⟨⟨4, 4⟩, true, true⟩ ⟨[⟨7, 7⟩], some ⟨5, 5⟩⟩
        ⟨⟨4, 4⟩, true, false, false, 1, 2⟩).prov = ⟨[⟨7, 7⟩], some ⟨5, 5⟩⟩ ∧
    (observerStep ⟨⟨4, 4⟩, true, true⟩ ⟨[⟨7, 7⟩], some ⟨5, 5⟩⟩
        ⟨⟨4, 4⟩, true, false, false, 1, 2⟩).observer = ⟨⟨4, 4⟩, true, false⟩ :=
  c8_noop_notification ⟨⟨4, 4⟩, true, true⟩ ⟨[⟨7, 7⟩], some ⟨5, 5⟩⟩
    ⟨⟨4, 4⟩, true, false, false, 1, 2⟩ (by decide) rfl

/-- C10: on mount with no observer attached yet, the initial
`resetBlocks(value)` is dispatched before the change observer is attached,
so its synchronous notification reaches no subscriber and mount produces
zero `onChange`/`onInput` emissions; the observer's baseline snapshot is
read after the reset, so it holds the freshly installed value and the
post-reset persistence flag. -/
theorem c10_mount_no_emission (value : Val) (p ign : Bool) (sys : SyncSystem)
    (h : sys.observer = none) :
    (componentDidMount value p ign sys).emissions = sys.emissions ∧
    (componentDidMount value p ign sys).observer
      = some { blocks := value, isPersistent := p,
               previousAreBlocksDifferent := false } ∧
    (componentDidMount value p ign sys).store.blocks = value ∧
    (componentDidMount value p ign sys).prov.isSyncingOutcomingValue = [] := by
  simp [componentDidMount, dispatchResetBlocks, attachChangeObserver,
    notifySubscribers, h]

theorem c10_mount_no_emission_witness :
    (componentDidMount ⟨1, 1⟩ false false
        ⟨⟨⟨0, 0⟩, false, false, false, 0, 0⟩, none, ⟨[], none⟩, []⟩).emissions = [] ∧
    (componentDidMount ⟨1, 1⟩ false false
        ⟨⟨⟨0, 0⟩, false, false, false, 0, 0⟩, none, ⟨[], none⟩, []⟩).observer
      = some ⟨⟨1, 1⟩, false, false⟩ :=
  have h := c10_mount_no_emission ⟨1, 1⟩ false false
    ⟨⟨⟨0, 0⟩, false, false, false, 0, 0⟩, none, ⟨[], none⟩, []⟩ rfl
  ⟨h.1, h.2.1⟩
